import Mathlib

/-!
Verification development for the TripSaathi WhatsApp batching bot
(`src/index.js`, richest variant).  The JavaScript source is shallowly
embedded: pure helpers become Lean functions, the mutable runtime
variables (`lastGroupChatId`, `messageBuffer`, `bufferTimer`) together
with the on-disk JSON store become an explicit state record, and the
event loop (message arrival, batch-timer expiry, completion of the
asynchronous timer callback) becomes a labelled transition function.
-/

namespace TripSaathi

/-! ## Identifier sanitization (`getGroupDir`, line 184)

`groupId.replace(/[^a-zA-Z0-9_.-]/g, '_')` -/

/-- A character matched by the JS character class `[a-zA-Z0-9_.-]`. -/
def isSafeIdChar (c : Char) : Bool :=
  ('a' ≤ c && c ≤ 'z') || ('A' ≤ c && c ≤ 'Z') || ('0' ≤ c && c ≤ '9') ||
  c = '_' || c = '.' || c = '-'

/-- The per-character action of `replace(/[^a-zA-Z0-9_.-]/g, '_')`. -/
def sanitizeReplaceChar (c : Char) : Char :=
  if isSafeIdChar c then c else '_'

/-- `groupId.replace(/[^a-zA-Z0-9_.-]/g, '_')`: every character outside
the safe class is replaced by an underscore. -/
def sanitizeId (s : String) : String :=
  ⟨s.data.map sanitizeReplaceChar⟩

/-- JS `String.prototype.trim` whitespace (the ASCII part; the
characters relevant to the protocol are all ASCII). -/
def isJsWs (c : Char) : Bool :=
  c = ' ' || c = '\t' || c = '\n' || c = '\r' || c = '\x0b' || c = '\x0c'

/-- JS `s.trim()`: strip leading and trailing whitespace. -/
def jsTrim (s : String) : String :=
  ⟨((s.data.dropWhile isJsWs).reverse.dropWhile isJsWs).reverse⟩

/-- JS `s.toLowerCase()` (ASCII lowering; the `"skip"` sentinel is
ASCII). -/
def jsToLower (s : String) : String :=
  ⟨s.data.map Char.toLower⟩

/-- JS `s.endsWith(suffix)`. -/
def jsEndsWith (s suffix : String) : Bool :=
  suffix.data.isSuffixOf s.data

/-- Directory name used for a group (`getGroupDir`, relative to
`data/groups`). -/
def groupDirName (groupId : String) : String := sanitizeId groupId

/-- File name used for a member record (`loadGroupAndMembersState`
line 367 and `persistUpdatedStates` line 400): the RAW member id with a
`.json` suffix. -/
def memberFileName (memberId : String) : String := memberId ++ ".json"

/-! ## Data model: `defaultGroupState` (lines 228-285) -/

structure GroupDates where
  start : Option String
  stop : Option String
  flexibility : String
  deriving DecidableEq, Repr

structure BudgetRange where
  min : Option Int
  max : Option Int
  currency : String
  perPerson : Bool
  totalEstimate : Option Int
  deriving DecidableEq, Repr

structure GroupPreferences where
  stayType : Option String
  accommodationStars : Option Nat
  roomsNeeded : Option Nat
  roomSharingPolicy : Option String
  transport : Option String
  flightCabin : Option String
  trainClass : Option String
  pace : String
  activityInterests : List String
  foodPreferences : List String
  dietaryRestrictions : List String
  mustSee : List String
  avoid : List String
  deriving DecidableEq, Repr

structure Consensus where
  status : String
  blockers : List String
  lastOptionSet : List String
  selectedOption : Option String
  deriving DecidableEq, Repr

structure Timeline where
  planningStart : Nat
  bookingDeadline : Option Nat
  departure : Option Nat
  comeback : Option Nat
  deriving DecidableEq, Repr

structure BookingProgress where
  flights : String
  stay : String
  activities : String
  localTransport : String
  deriving DecidableEq, Repr

structure GroupState where
  topic : Option String
  purpose : Option String
  originCities : List String
  candidateDestinations : List String
  destination : Option String
  dates : GroupDates
  durationNights : Option Nat
  budgetRange : BudgetRange
  headcount : Option Nat
  preferences : GroupPreferences
  consensus : Consensus
  timeline : Timeline
  bookingProgress : BookingProgress
  notes : List String
  lastUpdated : Nat
  deriving DecidableEq, Repr

/-- `defaultGroupState()`; `now` stands for `Date.now()` at creation. -/
def defaultGroupState (now : Nat) : GroupState where
  topic := none
  purpose := none
  originCities := []
  candidateDestinations := []
  destination := none
  dates := { start := none, stop := none, flexibility := "flexible" }
  durationNights := none
  budgetRange :=
    { min := none, max := none, currency := "INR", perPerson := true,
      totalEstimate := none }
  headcount := none
  preferences :=
    { stayType := none, accommodationStars := none, roomsNeeded := none,
      roomSharingPolicy := none, transport := none, flightCabin := none,
      trainClass := none, pace := "balanced", activityInterests := [],
      foodPreferences := [], dietaryRestrictions := [], mustSee := [],
      avoid := [] }
  consensus :=
    { status := "unknown", blockers := [], lastOptionSet := [],
      selectedOption := none }
  timeline :=
    { planningStart := now, bookingDeadline := none, departure := none,
      comeback := none }
  bookingProgress :=
    { flights := "pending", stay := "pending", activities := "pending",
      localTransport := "pending" }
  notes := []
  lastUpdated := now

/-! ## Data model: `defaultMemberState` (lines 293-331) -/

structure MemberBudget where
  amount : Option Int
  currency : String
  ceiling : Option Int
  deriving DecidableEq, Repr

structure Commitments where
  canTravel : Option String
  reason : Option String
  tentative : Option Bool
  deriving DecidableEq, Repr

structure TransportPrefs where
  flightCabin : Option String
  trainClass : Option String
  carType : Option String
  deriving DecidableEq, Repr

structure MemberPreferences where
  food : Option String
  dietaryRestrictions : List String
  allergies : List String
  activities : List String
  stayType : Option String
  preferredAmenities : List String
  transportPrefs : TransportPrefs
  roomSharing : String
  pace : String
  deriving DecidableEq, Repr

structure TravelDocuments where
  passportExpiry : Option String
  visaNeeded : Option Bool
  visaStatus : Option String
  visaNotes : Option String
  deriving DecidableEq, Repr

structure AvailabilityWindow where
  start : Option String
  stop : Option String
  deriving DecidableEq, Repr

structure MemberState where
  id : String
  name : Option String
  homeCity : Option String
  budget : MemberBudget
  budgetFlexibility : String
  destinationPrefs : List String
  avoidanceList : List String
  dateFlexibility : String
  availabilityWindows : List AvailabilityWindow
  role : String
  commitments : Commitments
  preferences : MemberPreferences
  travelDocuments : TravelDocuments
  healthNotes : List String
  communicationStyle : String
  lastUpdated : Nat
  deriving DecidableEq, Repr

/-- JS `x || null` on an optional string: an empty string is falsy and
collapses to `null`. -/
def orNull (s : Option String) : Option String :=
  match s with
  | some "" => none
  | x => x

/-- `defaultMemberState(memberId, memberName)`; the `name` field is
`memberName || null`. -/
def defaultMemberState (memberId : String) (memberName : Option String)
    (now : Nat) : MemberState where
  id := memberId
  name := orNull memberName
  homeCity := none
  budget := { amount := none, currency := "INR", ceiling := none }
  budgetFlexibility := "flexible"
  destinationPrefs := []
  avoidanceList := []
  dateFlexibility := "flexible"
  availabilityWindows := []
  role := "member"
  commitments := { canTravel := none, reason := none, tentative := none }
  preferences :=
    { food := none, dietaryRestrictions := [], allergies := [],
      activities := [], stayType := none, preferredAmenities := [],
      transportPrefs := { flightCabin := none, trainClass := none,
                          carType := none },
      roomSharing := "ok", pace := "balanced" }
  travelDocuments :=
    { passportExpiry := none, visaNeeded := none, visaStatus := none,
      visaNotes := none }
  healthNotes := []
  communicationStyle := "concise"
  lastUpdated := now

/-! ## On-disk JSON store

The bot persists state with synchronous `fs` calls under
`data/groups/<sanitized groupId>/`.  A file either parses
(`JSON.parse` succeeds, `loadJSON` returns the value) or is corrupt /
missing (`loadJSON` returns the supplied default, line 195-205). -/

inductive FileContent (α : Type)
  | parsed (v : α)
  | corrupt
  deriving DecidableEq, Repr

/-- The durable store: `group.json` per group directory, plus one
member file per member file name, both keyed by the group directory
name. `none` means the file does not exist. -/
structure Store where
  groups : String → Option (FileContent GroupState)
  members : String → String → Option (FileContent MemberState)

/-- The empty disk. -/
def Store.empty : Store where
  groups := fun _ => none
  members := fun _ _ => none

/-- `loadJSON(groupFile, dflt)`: parsed content if present and
parseable, otherwise the default (missing file and parse failure are
treated identically; nothing is ever thrown to the caller). -/
def loadGroupJSON (st : Store) (dir : String) (dflt : GroupState) :
    GroupState :=
  match st.groups dir with
  | some (.parsed v) => v
  | _ => dflt

/-- `loadJSON(memberFile, null)`: `some` parsed content, `none` when
missing or corrupt. -/
def loadMemberJSON (st : Store) (dir file : String) :
    Option MemberState :=
  match st.members dir file with
  | some (.parsed v) => some v
  | _ => none

/-- `saveJSON` on `group.json`. -/
def saveGroupJSON (st : Store) (dir : String) (g : GroupState) : Store where
  groups := fun d => if d = dir then some (.parsed g) else st.groups d
  members := st.members

/-- `saveJSON` on a member file. -/
def saveMemberJSON (st : Store) (dir file : String) (m : MemberState) :
    Store where
  groups := st.groups
  members := fun d f =>
    if d = dir && f = file then some (.parsed m) else st.members d f

/-! ## `loadGroupAndMembersState` (lines 338-384) -/

/-- A chat participant as consumed by the handler:
`p.id._serialized`, `p.id.user` and `p.isMe`. -/
structure Participant where
  id : String
  user : Option String
  isMe : Bool
  deriving DecidableEq, Repr

/-- Chat metadata returned by `client.getChatById`. -/
structure ChatInfo where
  name : String
  participants : List Participant
  deriving DecidableEq, Repr

/-- The `HARDCODED_MEMBER_NAMES` override table (lines 107-111). -/
def hardcodedMemberNames (memberId : String) : Option String :=
  if memberId = "918965012692@c.us" then some "TripSaathi"
  else if memberId = "919573838939@c.us" then some "Krishna"
  else if memberId = "917013614596@c.us" then some "Vamshidhar"
  else none

/-- Name resolution for one participant (lines 357-366): hardcoded
override first, then `p.id.user || null`. -/
def resolveMemberName (p : Participant) : Option String :=
  match hardcodedMemberNames p.id with
  | some n => some n
  | none => orNull p.user

/-- Processing of one participant (lines 354-376): load the member
file; when missing or corrupt, build a default record and persist it
immediately; an existing parseable record is returned untouched and
NOT rewritten. -/
def loadOneMember (dir : String) (now : Nat) (p : Participant)
    (st : Store) : MemberState × Store :=
  let memberId := p.id
  let file := memberFileName memberId
  match loadMemberJSON st dir file with
  | some existing => (existing, st)
  | none =>
      let state := defaultMemberState memberId (resolveMemberName p) now
      (state, saveMemberJSON st dir file state)

/-- Sequential processing of the participant list (the `async`
callbacks in `participants.map` contain no `await`, so they run to
completion in order). -/
def loadMembersList (dir : String) (now : Nat) (ps : List Participant)
    (st : Store) : List MemberState × Store :=
  match ps with
  | [] => ([], st)
  | p :: rest =>
      let r1 := loadOneMember dir now p st
      let r2 := loadMembersList dir now rest r1.2
      (r1.1 :: r2.1, r2.2)

/-- Participant filtering (lines 348-353): drop our own identity. -/
def filterParticipants (myId : Option String) (ps : List Participant) :
    List Participant :=
  match myId with
  | none => ps
  | some me => ps.filter (fun p => p.id ≠ me && p.isMe ≠ true)

/-- Result of `loadGroupAndMembersState`. -/
structure LoadResult where
  groupState : GroupState
  members : List MemberState
  groupDir : String
  store : Store

/-- `loadGroupAndMembersState(chat)` (lines 338-384): load (or
default) the group record, process each non-self participant, and
finally always re-persist the group record. -/
def loadGroupAndMembersState (myId : Option String) (now : Nat)
    (groupId : String) (chat : ChatInfo) (st : Store) : LoadResult :=
  let dir := groupDirName groupId
  let groupState := loadGroupJSON st dir (defaultGroupState now)
  let ps := filterParticipants myId chat.participants
  let r := loadMembersList dir now ps st
  let st2 := saveGroupJSON r.2 dir groupState
  { groupState := groupState, members := r.1, groupDir := dir,
    store := st2 }

/-! ## `persistUpdatedStates` (lines 391-404) -/

/-- One entry of `updated.members`: possibly `null` (the `!m` check),
otherwise an object whose `id` may be absent (`none`), empty (falsy)
or a usable string. -/
inductive MemberUpdEntry
  | nullEntry
  | obj (id : Option String) (state : MemberState)
  deriving DecidableEq, Repr

/-- The `updated` object of the response envelope.  `group := some g`
models a present (and truthy: JS objects are truthy) `updated.group`;
`members := some l` models a present array (`Array.isArray`). -/
structure UpdatedStates where
  group : Option GroupState
  members : Option (List MemberUpdEntry)
  deriving DecidableEq, Repr

/-- The per-entry body of the `forEach` (lines 398-402):
`if (!m || !m.id) return;` then save `${m.id}.json`. -/
def persistOneMemberUpd (dir : String) (st : Store)
    (e : MemberUpdEntry) : Store :=
  match e with
  | .nullEntry => st
  | .obj id m =>
      match id with
      | none => st
      | some i => if i = "" then st else saveMemberJSON st dir (memberFileName i) m

/-- Left-to-right iteration of the `forEach` over `updated.members`. -/
def persistMemberUpds (dir : String) (es : List MemberUpdEntry)
    (st : Store) : Store :=
  match es with
  | [] => st
  | e :: rest => persistMemberUpds dir rest (persistOneMemberUpd dir st e)

/-- `persistUpdatedStates(groupDir, updated)` (lines 391-404). -/
def persistUpdatedStates (dir : String) (updated : Option UpdatedStates)
    (st : Store) : Store :=
  match updated with
  | none => st
  | some u =>
      let st1 :=
        match u.group with
        | some g => saveGroupJSON st dir g
        | none => st
      match u.members with
      | some es => persistMemberUpds dir es st1
      | none => st1

/-! ## Messages, payload, response envelope -/

/-- An incoming `msg` as consumed by the handler: `msg.from`,
`msg.body`, `msg.timestamp`, `msg.author`, `msg._data?.notifyName`.
(`from` is a Lean keyword, hence `sender`.) -/
structure IncomingMsg where
  sender : String
  body : String
  timestamp : Nat
  author : Option String
  notifyName : Option String
  deriving DecidableEq, Repr

/-- The object pushed onto `messageBuffer` (lines 477-486); the
`msgObj` back-reference is irrelevant to the embedding. -/
structure BufferedMsg where
  sender : String
  body : String
  isGroupMsg : Bool
  chatId : String
  timestamp : Nat
  author : Option String
  senderName : Option String
  deriving DecidableEq, Repr

def bufferedOf (m : IncomingMsg) : BufferedMsg where
  sender := m.sender
  body := m.body
  isGroupMsg := jsEndsWith m.sender "@g.us"
  chatId := m.sender
  timestamp := m.timestamp
  author := orNull m.author
  senderName := orNull m.notifyName

/-- A message as placed in the outbound payload (lines 493-497):
`{ message: m.body, senderName: m.senderName }` (chatId commented
out in the source). -/
structure PayloadMsg where
  message : String
  senderName : Option String
  deriving DecidableEq, Repr

def toPayloadMsg (m : BufferedMsg) : PayloadMsg where
  message := m.body
  senderName := m.senderName

/-- `meta` block of `buildN8nPayload` (lines 427-432). -/
structure Meta where
  groupName : String
  groupId : String
  timestamp : Nat
  dateStr : String
  deriving DecidableEq, Repr

/-- The outbound payload.  The bare timer-callback payload carries
only `messages`; `buildN8nPayload` adds group, members, meta and the
internal `_groupDir` tag (here `groupDirTag`, stripped before the
HTTP call). -/
structure N8nPayload where
  messages : List PayloadMsg
  group : Option GroupState
  members : Option (List MemberState)
  meta : Option Meta
  groupDirTag : Option String
  deriving DecidableEq, Repr

/-- `buildN8nPayload` (lines 416-435); the `JSON.parse(JSON.stringify(..))`
deep copies are value copies here. -/
def buildN8nPayload (messages : List PayloadMsg) (groupState : GroupState)
    (members : List MemberState) (chat : ChatInfo) (groupId : String)
    (dir : String) (now : Nat) (dateStr : String) : N8nPayload where
  messages := messages
  group := some groupState
  members := some members
  meta := some { groupName := chat.name, groupId := groupId,
                 timestamp := now, dateStr := dateStr }
  groupDirTag := some dir

/-- `const axiosPayload = {...payload}; delete axiosPayload._groupDir`
(lines 443-444). -/
def stripGroupDir (p : N8nPayload) : N8nPayload := { p with groupDirTag := none }

/-- The value of the `response` field of the envelope's `output`
block: a string, or some non-string JSON value. -/
inductive RespVal
  | str (s : String)
  | nonString
  deriving DecidableEq, Repr

/-- The `output` wrapper; `response := none` models an absent field. -/
structure OutputBlock where
  response : Option RespVal
  deriving DecidableEq, Repr

/-- A parsed orchestrator response envelope: `data.updated` and
`data.output`, each possibly absent. -/
structure Envelope where
  updated : Option UpdatedStates
  output : Option OutputBlock
  deriving DecidableEq, Repr

/-- Outcome of the `axios.post` round trip in `sendToN8n`
(lines 442-464) combined with the string-normalization step
(lines 507-514): `failure` is any network error / non-2xx / timeout
(`sendToN8n` returns `null`); `objData` is a structured JSON body;
`strData p` is a string body, `p = none` when `JSON.parse` fails. -/
inductive HttpOutcome
  | failure
  | objData (envl : Envelope)
  | strData (parsed : Option Envelope)
  deriving DecidableEq, Repr

/-- Externally visible effects of the pipeline. -/
inductive Action
  | postBatch (payload : N8nPayload)
  | send (chatId : String) (text : String)
  deriving DecidableEq, Repr

/-! ## The event machine

The runtime is single-threaded and event-driven; the mutable globals
plus the disk form the state.  The asynchronous timer callback is
split at its `await sendToN8n` suspension point into two atomic
steps: `timerFire` (snapshot, enrichment, HTTP request issued) and
`cycleComplete` (response handling and the `finally` block).  Message
events may interleave between the two, exactly as the Node event loop
allows while the HTTP round trip is pending. -/

/-- The fixed environment: our own WhatsApp id (`client.info.wid`),
`Date.now()` at the batch cycle, the platform's local-time
`DD-MM-YYYY` rendering of that instant (the source formats via the
host `Date` object), and chat metadata per `client.getChatById`. -/
structure Env where
  myId : Option String
  now : Nat
  dateStr : String
  chats : String → ChatInfo

/-- Whether the timer callback is in flight, and with which captured
payload. -/
inductive Phase
  | idle
  | inflight (payload : N8nPayload)
  deriving DecidableEq, Repr

/-- The mutable runtime state: the three globals of lines 101-103, a
count of scheduled-but-unfired timers, the callback phase, and the
disk. -/
structure SysState where
  lastGroupChatId : Option String
  messageBuffer : List BufferedMsg
  bufferTimer : Bool
  pendingTimers : Nat
  phase : Phase
  store : Store

def initState (st : Store) : SysState where
  lastGroupChatId := none
  messageBuffer := []
  bufferTimer := false
  pendingTimers := 0
  phase := .idle
  store := st

/-- The `client.on('message')` handler body (lines 468-547): record
the group chat id for group messages, append to the buffer, and
schedule a timer only when `bufferTimer` is null. -/
def handleMessage (s : SysState) (m : IncomingMsg) : SysState :=
  let isGroup := jsEndsWith m.sender "@g.us"
  let lgid := if isGroup then some m.sender else s.lastGroupChatId
  let buf := s.messageBuffer ++ [bufferedOf m]
  if s.bufferTimer then
    { s with lastGroupChatId := lgid, messageBuffer := buf }
  else
    { s with lastGroupChatId := lgid, messageBuffer := buf,
             bufferTimer := true, pendingTimers := s.pendingTimers + 1 }

/-- The synchronous prefix of the timer callback (lines 490-505): map
the buffer into payload messages, enrich with group and member state
when a group chat id is known, and issue the HTTP request.  The
buffer is NOT cleared here — that happens only in the `finally`
block. -/
def fireTimer (env : Env) (s : SysState) : SysState × List Action :=
  let snap := s.messageBuffer.map toPayloadMsg
  match s.lastGroupChatId with
  | none =>
      let payload : N8nPayload :=
        { messages := snap, group := none, members := none, meta := none,
          groupDirTag := none }
      ({ s with pendingTimers := s.pendingTimers - 1,
                phase := .inflight payload },
       [.postBatch (stripGroupDir payload)])
  | some gid =>
      let chat := env.chats gid
      let r := loadGroupAndMembersState env.myId env.now gid chat s.store
      let payload := buildN8nPayload snap r.groupState r.members chat gid
        r.groupDir env.now env.dateStr
      ({ s with pendingTimers := s.pendingTimers - 1,
                phase := .inflight payload, store := r.store },
       [.postBatch (stripGroupDir payload)])

/-- `data` normalization (lines 505-517): `sendToN8n` returns `null`
on failure; a string body is `JSON.parse`d, turning a parse failure
into `null`. -/
def normalizeResponse (o : HttpOutcome) : Option Envelope :=
  match o with
  | .failure => none
  | .objData e => some e
  | .strData p => p

/-- Reply decision of lines 528-536, reached only when
`lastGroupChatId` is set.  `data.output.response` throws a
`TypeError` when `data.output` is absent (modelled by `.error`);
otherwise a string response equal to "skip" after trim/lower-case is
suppressed, a string with non-empty trim is sent verbatim, and
anything else is ignored. -/
def decideReply (gid : String) (output : Option OutputBlock) :
    Except Unit (List Action) :=
  match output with
  | none => .error ()
  | some ob =>
      match ob.response with
      | some (.str s) =>
          if jsToLower (jsTrim s) = "skip" then .ok []
          else if (jsTrim s).length > 0 then .ok [.send gid s]
          else .ok []
      | _ => .ok []

/-- Result of one machine step. -/
structure StepResult where
  state : SysState
  actions : List Action
  threw : Bool

/-- Lines 519-526: `if (payload._groupDir) persistUpdatedStates(...)`
(the surrounding try/catch never fires in the embedding, where the
store operations are total). -/
def persistPhase (payload : N8nPayload) (upd : Option UpdatedStates)
    (st : Store) : Store :=
  match payload.groupDirTag with
  | some dir => persistUpdatedStates dir upd st
  | none => st

/-- The suffix of the timer callback after `await sendToN8n`
(lines 505-541): on falsy `data` return early; otherwise persist
`data.updated` when the payload carried `_groupDir`, then run the
reply decision against the CURRENT `lastGroupChatId`; the `finally`
block (lines 537-541) clears buffer and timer handle uncondition-
ally, also when the reply step threw. -/
def completeCycle (s : SysState) (payload : N8nPayload)
    (o : HttpOutcome) : StepResult :=
  match normalizeResponse o with
  | none =>
      { state := { s with messageBuffer := [], bufferTimer := false,
                          phase := .idle },
        actions := [], threw := false }
  | some envl =>
      match s.lastGroupChatId with
      | none =>
          { state := { s with store := persistPhase payload envl.updated s.store,
                              messageBuffer := [],
                              bufferTimer := false, phase := .idle },
            actions := [], threw := false }
      | some gid =>
          match decideReply gid envl.output with
          | .ok acts =>
              { state := { s with store := persistPhase payload envl.updated s.store,
                                  messageBuffer := [],
                                  bufferTimer := false, phase := .idle },
                actions := acts, threw := false }
          | .error _ =>
              { state := { s with store := persistPhase payload envl.updated s.store,
                                  messageBuffer := [],
                                  bufferTimer := false, phase := .idle },
                actions := [], threw := true }

/-- Events the runtime reacts to. -/
inductive Event
  | message (m : IncomingMsg)
  | timerFire
  | cycleComplete (outcome : HttpOutcome)

/-- One step when the event is enabled: a timer can fire only if one
is scheduled and no callback is in flight; a cycle can complete only
if one is in flight. -/
def tryStep (env : Env) (s : SysState) (e : Event) : Option StepResult :=
  match e with
  | .message m =>
      some { state := handleMessage s m, actions := [], threw := false }
  | .timerFire =>
      match s.phase with
      | .idle =>
          if s.pendingTimers = 0 then none
          else
            some { state := (fireTimer env s).1,
                   actions := (fireTimer env s).2, threw := false }
      | .inflight _ => none
  | .cycleComplete o =>
      match s.phase with
      | .inflight payload => some (completeCycle s payload o)
      | .idle => none

/-- Total step: a disabled event leaves the state unchanged. -/
def step (env : Env) (s : SysState) (e : Event) : StepResult :=
  (tryStep env s e).getD { state := s, actions := [], threw := false }

/-- Run a sequence of events, accumulating emitted actions and
whether any step threw. -/
def run (env : Env) (s : SysState) (es : List Event) : StepResult :=
  match es with
  | [] => { state := s, actions := [], threw := false }
  | e :: rest =>
      let r := step env s e
      let r2 := run env r.state rest
      { state := r2.state, actions := r.actions ++ r2.actions,
        threw := r.threw || r2.threw }

/-! ## Concrete fixtures for witnesses and counterexamples -/

/-- A concrete environment: empty participant list, fixed clock. -/
def envC : Env where
  myId := some "918965012692@c.us"
  now := 1000
  dateStr := "12-10-2026"
  chats := fun _ => { name := "Trip Planner", participants := [] }

/-- A concrete group-chat message. -/
def gmsg : IncomingMsg where
  sender := "120363@g.us"
  body := "Goa?"
  timestamp := 1
  author := some "919573838939@c.us"
  notifyName := some "Krishna"

/-- A concrete direct (non-group) message. -/
def dmsg : IncomingMsg where
  sender := "917013614596@c.us"
  body := "hi"
  timestamp := 2
  author := none
  notifyName := none

/-- A concrete member record used in update fixtures. -/
def mFix : MemberState := defaultMemberState "919573838939@c.us" (some "Krishna") 1000

/-- A concrete member record whose id is the empty string. -/
def mEmptyId : MemberState := defaultMemberState "" none 1000

/-! ## Helper predicates and lemmas -/

/-- Whether an `updated.members` entry would write the member file
`f`: the entry must be non-null with a truthy (non-empty) `id` whose
file name is `f`. -/
def updMatches (f : String) (e : MemberUpdEntry) : Bool :=
  match e with
  | .nullEntry => false
  | .obj id _ =>
      match id with
      | none => false
      | some i => i ≠ "" && memberFileName i = f

/-- The bare payload produced when only the direct message `dmsg` is
buffered at expiry. -/
def barePayloadHi : N8nPayload where
  messages := [{ message := "hi", senderName := none }]
  group := none
  members := none
  meta := none
  groupDirTag := none

/-- A well-formed response envelope carrying a plain reply text. -/
def helloEnvelope : Envelope where
  updated := none
  output := some { response := some (.str "hello there") }

/-- Inductive invariant of the runtime: at most one scheduled timer;
no timer is scheduled when the handle is null; during an in-flight
callback no timer is scheduled and the (stale) handle is still set. -/
def TimerInv (s : SysState) : Prop :=
  s.pendingTimers ≤ 1 ∧
  (s.bufferTimer = false → s.pendingTimers = 0) ∧
  (∀ p, s.phase = .inflight p → s.pendingTimers = 0) ∧
  (∀ p, s.phase = .inflight p → s.bufferTimer = true)

/-- `lastGroupChatId` after a run of message events. -/
def lastGroupOf (init : Option String) (ms : List IncomingMsg) :
    Option String :=
  match ms with
  | [] => init
  | m :: rest =>
      lastGroupOf (if jsEndsWith m.sender "@g.us" then some m.sender else init)
        rest

end TripSaathi

namespace TripSaathi

/-- Every character of a sanitized identifier lies in `[A-Za-z0-9_.-]`. -/
lemma sanitize_chars_safe (s : String) :
    ∀ c ∈ (sanitizeId s).data, isSafeIdChar c = true := by
  intro c hc
  obtain ⟨c1, _, rfl⟩ := List.mem_map.mp hc
  unfold sanitizeReplaceChar
  split
  · assumption
  · decide

end TripSaathi

namespace TripSaathi

lemma persistOneMemberUpd_groups (dir : String) (st : Store)
    (e : MemberUpdEntry) :
    (persistOneMemberUpd dir st e).groups = st.groups := by
  unfold persistOneMemberUpd
  split
  · rfl
  · split
    · rfl
    · split
      · rfl
      · rfl

lemma persistMemberUpds_groups (dir : String) (es : List MemberUpdEntry)
    (st : Store) :
    (persistMemberUpds dir es st).groups = st.groups := by
  induction es generalizing st with
  | nil => rfl
  | cons e rest ih =>
      rw [persistMemberUpds, ih, persistOneMemberUpd_groups]

lemma persistOneMemberUpd_members_ne (dir : String) (st : Store)
    (e : MemberUpdEntry) (d f : String) (h : d ≠ dir) :
    (persistOneMemberUpd dir st e).members d f = st.members d f := by
  unfold persistOneMemberUpd
  split
  · rfl
  · split
    · rfl
    · split
      · rfl
      · simp [saveMemberJSON, h]

lemma persistMemberUpds_members_ne (dir : String)
    (es : List MemberUpdEntry) (st : Store) (d f : String) (h : d ≠ dir) :
    (persistMemberUpds dir es st).members d f = st.members d f := by
  induction es generalizing st with
  | nil => rfl
  | cons e rest ih =>
      rw [persistMemberUpds, ih, persistOneMemberUpd_members_ne dir st e d f h]

lemma persistMemberUpds_lookup (dir : String) (es : List MemberUpdEntry)
    (st : Store) (f : String) :
    (persistMemberUpds dir es st).members dir f =
      match es.reverse.find? (updMatches f) with
      | some (.obj _ m) => some (.parsed m)
      | _ => st.members dir f := by
  induction es generalizing st with
  | nil => rfl
  | cons e rest ih =>
      rw [persistMemberUpds, ih, List.reverse_cons, List.find?_append]
      cases hfind : rest.reverse.find? (updMatches f) with
      | some e1 =>
          have hp := List.find?_some hfind
          cases e1 with
          | nullEntry => simp [updMatches] at hp
          | obj id m => simp
      | none =>
          simp only [Option.or]
          cases e with
          | nullEntry => simp [List.find?, updMatches, persistOneMemberUpd]
          | obj id m =>
              cases id with
              | none => simp [List.find?, updMatches, persistOneMemberUpd]
              | some i =>
                  by_cases hi : i = ""
                  · subst hi
                    simp [List.find?, updMatches, persistOneMemberUpd]
                  · by_cases hf : memberFileName i = f
                    · subst hf
                      simp [List.find?, updMatches, hi, persistOneMemberUpd,
                            saveMemberJSON]
                    · simp [List.find?, updMatches, hi, hf,
                            persistOneMemberUpd, saveMemberJSON]
                      intro hcon
                      exact absurd hcon.symm hf

end TripSaathi

namespace TripSaathi

/-- C8: the identity sanitizer is a total pure function whose output
contains only characters in `[A-Za-z0-9_.-]`, each input character
outside that set being replaced by an underscore. -/
theorem sanitizer_safe_output (s : String) :
    (∀ c ∈ (sanitizeId s).data, isSafeIdChar c = true) ∧
    (sanitizeId s).data = s.data.map sanitizeReplaceChar :=
  ⟨sanitize_chars_safe s, rfl⟩

/-- Witness for C8 at the identifier "user@dom/a b". -/
theorem sanitizer_safe_output_witness :
    ('_' ∈ (sanitizeId "user@dom/a b").data ∧ isSafeIdChar '_' = true) ∧
    (sanitizeId "user@dom/a b").data = "user@dom/a b".data.map sanitizeReplaceChar :=
  ⟨⟨by decide, (sanitizer_safe_output "user@dom/a b").1 '_' (by decide)⟩,
   (sanitizer_safe_output "user@dom/a b").2⟩

/-- C9 counterexample: the member-level storage key is the RAW member
identifier plus ".json" — for the real member id `919573838939@c.us`
(from the hardcoded table) the key written by `persistUpdatedStates`
contains `@`, which is outside `[A-Za-z0-9_.-]`. -/
theorem member_key_unsanitized_counterexample :
    isSafeIdChar '@' = false ∧
    '@' ∈ (memberFileName "919573838939@c.us").data ∧
    (persistUpdatedStates (groupDirName "120363@g.us")
        (some { group := none,
                members := some [.obj (some "919573838939@c.us") mFix] })
        Store.empty).members (groupDirName "120363@g.us")
        (memberFileName "919573838939@c.us") = some (.parsed mFix) := by
  refine ⟨by decide, by decide, ?_⟩
  rfl

/-- C9 amended: the group-level key is sanitized (safe characters
only), while the member-level key embeds every character of the raw
member identifier unchanged. -/
theorem storage_keys_spec (gid mid : String) :
    (∀ c ∈ (groupDirName gid).data, isSafeIdChar c = true) ∧
    (∀ c ∈ mid.data, c ∈ (memberFileName mid).data) := by
  refine ⟨sanitize_chars_safe gid, ?_⟩
  intro c hc
  have hm : (memberFileName mid).data = mid.data ++ ".json".data := rfl
  rw [hm]
  exact List.mem_append.mpr (Or.inl hc)

/-- Witness for C9's amended statement. -/
theorem storage_keys_spec_witness :
    ('1' ∈ (groupDirName "120363@g.us").data ∧ isSafeIdChar '1' = true) ∧
    ('@' ∈ "a@b".data ∧ '@' ∈ (memberFileName "a@b").data) :=
  ⟨⟨by decide, (storage_keys_spec "120363@g.us" "a@b").1 '1' (by decide)⟩,
   ⟨by decide, (storage_keys_spec "120363@g.us" "a@b").2 '@' (by decide)⟩⟩

/-- C2 counterexample: `"   "` is a non-empty string that is not a
trimmed case-insensitive match of "skip", yet the code posts nothing
(its trim is empty, so the `trim().length > 0` arm is not taken). -/
theorem reply_whitespace_counterexample :
    ("   " : String) ≠ "" ∧
    jsToLower (jsTrim "   ") ≠ "skip" ∧
    decideReply "120363@g.us"
      (some { response := some (.str "   ") }) = .ok [] := by
  refine ⟨by decide, by decide, rfl⟩

/-- C2 amended: a string `response` equal to "skip" after trimming
and lower-casing suppresses the reply; a string whose trimmed form is
non-empty and not such a match is posted verbatim to the target chat. -/
theorem reply_decision_spec (s gid : String) :
    (jsToLower (jsTrim s) = "skip" →
      decideReply gid (some { response := some (.str s) }) = .ok []) ∧
    ((jsTrim s).length > 0 → jsToLower (jsTrim s) ≠ "skip" →
      decideReply gid (some { response := some (.str s) }) =
        .ok [.send gid s]) := by
  constructor
  · intro h
    simp [decideReply, h]
  · intro h1 h2
    simp [decideReply, h1, h2]

/-- Witness for C2's amended statement: " SKIP " is suppressed,
"Skip the beach" is posted verbatim. -/
theorem reply_decision_spec_witness :
    (jsToLower (jsTrim " SKIP ") = "skip" ∧
      decideReply "120363@g.us"
        (some { response := some (.str " SKIP ") }) = .ok []) ∧
    ((jsTrim "Skip the beach").length > 0 ∧
      jsToLower (jsTrim "Skip the beach") ≠ "skip" ∧
      decideReply "120363@g.us"
        (some { response := some (.str "Skip the beach") }) =
          .ok [.send "120363@g.us" "Skip the beach"]) :=
  ⟨⟨by decide, (reply_decision_spec " SKIP " "120363@g.us").1 (by decide)⟩,
   ⟨by decide, by decide,
    (reply_decision_spec "Skip the beach" "120363@g.us").2 (by decide) (by decide)⟩⟩

/-- C7 counterexample: an `updated.members` entry whose `id` is
present but the empty string is skipped (the code tests truthiness,
`!m.id`), so the record the claim says must be replaced is never
written. -/
theorem persist_empty_id_counterexample :
    (some ("" : String)).isSome = true ∧
    (persistUpdatedStates "g"
        (some { group := none,
                members := some [.obj (some "") mEmptyId] })
        Store.empty).members "g" (memberFileName "") = none :=
  ⟨rfl, rfl⟩

/-- C7 amended: `applyUpdates` replaces the group record exactly when
`updated.group` is present, replaces exactly those member records
whose entry carries a truthy (present and non-empty) id — the last
entry for a given id winning — skips null and id-less entries without
error, and leaves every other stored record unchanged. -/
theorem persistUpdatedStates_spec (dir : String) (gopt : Option GroupState)
    (es : List MemberUpdEntry) (st : Store) :
    ((persistUpdatedStates dir
        (some { group := gopt, members := some es }) st).groups dir
      = match gopt with
        | some g => some (.parsed g)
        | none => st.groups dir) ∧
    (∀ d, d ≠ dir →
      (persistUpdatedStates dir
          (some { group := gopt, members := some es }) st).groups d
        = st.groups d ∧
      ∀ f, (persistUpdatedStates dir
          (some { group := gopt, members := some es }) st).members d f
        = st.members d f) ∧
    (∀ f, (persistUpdatedStates dir
        (some { group := gopt, members := some es }) st).members dir f
      = match es.reverse.find? (updMatches f) with
        | some (.obj _ m) => some (.parsed m)
        | _ => st.members dir f) ∧
    persistUpdatedStates dir none st = st := by
  cases gopt with
  | none =>
      refine ⟨?_, ?_, ?_, rfl⟩
      · rw [show persistUpdatedStates dir
              (some { group := none, members := some es }) st
            = persistMemberUpds dir es st from rfl]
        rw [persistMemberUpds_groups]
      · intro d hd
        rw [show persistUpdatedStates dir
              (some { group := none, members := some es }) st
            = persistMemberUpds dir es st from rfl]
        exact ⟨by rw [persistMemberUpds_groups],
               fun f => persistMemberUpds_members_ne dir es st d f hd⟩
      · intro f
        rw [show persistUpdatedStates dir
              (some { group := none, members := some es }) st
            = persistMemberUpds dir es st from rfl]
        exact persistMemberUpds_lookup dir es st f
  | some g =>
      have hrw : persistUpdatedStates dir
          (some { group := some g, members := some es }) st
          = persistMemberUpds dir es (saveGroupJSON st dir g) := rfl
      refine ⟨?_, ?_, ?_, rfl⟩
      · rw [hrw, persistMemberUpds_groups]
        simp [saveGroupJSON]
      · intro d hd
        rw [hrw]
        constructor
        · rw [persistMemberUpds_groups]
          simp [saveGroupJSON, hd]
        · intro f
          rw [persistMemberUpds_members_ne dir es _ d f hd]
          rfl
      · intro f
        rw [hrw, persistMemberUpds_lookup]
        rfl

/-- Witness for C7's amended statement: the `m1` entry is written,
the null entry is skipped, another directory is untouched. -/
theorem persistUpdatedStates_spec_witness :
    (persistUpdatedStates "g1"
        (some { group := some (defaultGroupState 5),
                members := some [.obj (some "m1") mFix, .nullEntry] })
        Store.empty).groups "g1" = some (.parsed (defaultGroupState 5)) ∧
    ("g2" : String) ≠ "g1" ∧
    (persistUpdatedStates "g1"
        (some { group := some (defaultGroupState 5),
                members := some [.obj (some "m1") mFix, .nullEntry] })
        Store.empty).members "g2" "m1.json" = none ∧
    (persistUpdatedStates "g1"
        (some { group := some (defaultGroupState 5),
                members := some [.obj (some "m1") mFix, .nullEntry] })
        Store.empty).members "g1" (memberFileName "m1")
      = some (.parsed mFix) := by
  refine ⟨?_, by decide, ?_, ?_⟩
  · exact (persistUpdatedStates_spec "g1" (some (defaultGroupState 5))
      [.obj (some "m1") mFix, .nullEntry] Store.empty).1
  · exact ((persistUpdatedStates_spec "g1" (some (defaultGroupState 5))
      [.obj (some "m1") mFix, .nullEntry] Store.empty).2.1 "g2"
        (by decide)).2 "m1.json"
  · exact (persistUpdatedStates_spec "g1" (some (defaultGroupState 5))
      [.obj (some "m1") mFix, .nullEntry] Store.empty).2.2.1
        (memberFileName "m1")

/-- C6: loading a group with no persisted (or no parseable) record
returns the default GroupState, whose consensus status is "unknown",
persists it, and a subsequent load returns the same content; parse
failures are absorbed (the corrupt case behaves like the missing
case). -/
theorem loadGroup_default_spec (myId : Option String) (now : Nat)
    (groupId : String) (chat : ChatInfo) (st : Store)
    (h : st.groups (groupDirName groupId) = none ∨
         st.groups (groupDirName groupId) = some .corrupt) :
    (loadGroupAndMembersState myId now groupId chat st).groupState
        = defaultGroupState now ∧
    (defaultGroupState now).consensus.status = "unknown" ∧
    (loadGroupAndMembersState myId now groupId chat st).store.groups
        (groupDirName groupId) = some (.parsed (defaultGroupState now)) ∧
    (loadGroupAndMembersState myId now groupId chat
        (loadGroupAndMembersState myId now groupId chat st).store).groupState
        = defaultGroupState now := by
  have hload : loadGroupJSON st (groupDirName groupId)
      (defaultGroupState now) = defaultGroupState now := by
    unfold loadGroupJSON
    rcases h with h | h <;> rw [h]
  have hstore : (loadGroupAndMembersState myId now groupId chat st).store.groups
      (groupDirName groupId) = some (.parsed (defaultGroupState now)) := by
    show (saveGroupJSON _ (groupDirName groupId)
        (loadGroupJSON st (groupDirName groupId) (defaultGroupState now))).groups
        (groupDirName groupId) = _
    rw [hload]
    simp [saveGroupJSON]
  refine ⟨hload, rfl, hstore, ?_⟩
  show loadGroupJSON (loadGroupAndMembersState myId now groupId chat st).store
      (groupDirName groupId) (defaultGroupState now) = defaultGroupState now
  unfold loadGroupJSON
  rw [hstore]

/-- Witness for C6 at a fresh (empty) store. -/
theorem loadGroup_default_spec_witness :
    (loadGroupAndMembersState none 1000 "120363@g.us"
        { name := "Trip Planner", participants := [] } Store.empty).groupState
      = defaultGroupState 1000 ∧
    (defaultGroupState 1000).consensus.status = "unknown" ∧
    (loadGroupAndMembersState none 1000 "120363@g.us"
        { name := "Trip Planner", participants := [] } Store.empty).store.groups
      (groupDirName "120363@g.us") = some (.parsed (defaultGroupState 1000)) ∧
    (loadGroupAndMembersState none 1000 "120363@g.us"
        { name := "Trip Planner", participants := [] }
        (loadGroupAndMembersState none 1000 "120363@g.us"
          { name := "Trip Planner", participants := [] }
          Store.empty).store).groupState = defaultGroupState 1000 :=
  loadGroup_default_spec none 1000 "120363@g.us"
    { name := "Trip Planner", participants := [] } Store.empty (Or.inl rfl)

end TripSaathi

namespace TripSaathi

lemma run_append_state (env : Env) (s : SysState) (l1 l2 : List Event) :
    (run env s (l1 ++ l2)).state = (run env (run env s l1).state l2).state := by
  induction l1 generalizing s with
  | nil => rfl
  | cons e rest ih => exact ih (step env s e).state

lemma run_append_actions (env : Env) (s : SysState) (l1 l2 : List Event) :
    (run env s (l1 ++ l2)).actions
      = (run env s l1).actions ++ (run env (run env s l1).state l2).actions := by
  induction l1 generalizing s with
  | nil => rfl
  | cons e rest ih =>
      show (step env s e).actions ++ (run env (step env s e).state (rest ++ l2)).actions = _
      rw [ih (step env s e).state]
      simp [run, List.append_assoc]

lemma run_append_threw (env : Env) (s : SysState) (l1 l2 : List Event) :
    (run env s (l1 ++ l2)).threw
      = ((run env s l1).threw || (run env (run env s l1).state l2).threw) := by
  induction l1 generalizing s with
  | nil => rfl
  | cons e rest ih =>
      show ((step env s e).threw || (run env (step env s e).state (rest ++ l2)).threw) = _
      rw [ih (step env s e).state]
      simp [run, Bool.or_assoc]

lemma run_cons_state (env : Env) (s : SysState) (e : Event) (es : List Event) :
    (run env s (e :: es)).state = (run env (step env s e).state es).state := rfl

lemma run_cons_actions (env : Env) (s : SysState) (e : Event) (es : List Event) :
    (run env s (e :: es)).actions
      = (step env s e).actions ++ (run env (step env s e).state es).actions := rfl

lemma run_cons_threw (env : Env) (s : SysState) (e : Event) (es : List Event) :
    (run env s (e :: es)).threw
      = ((step env s e).threw || (run env (step env s e).state es).threw) := rfl

lemma run_nil_state (env : Env) (s : SysState) : (run env s []).state = s := rfl

lemma run_nil_actions (env : Env) (s : SysState) : (run env s []).actions = [] := rfl

lemma run_nil_threw (env : Env) (s : SysState) : (run env s []).threw = false := rfl

lemma step_message_state (env : Env) (s : SysState) (m : IncomingMsg) :
    (step env s (Event.message m)).state = handleMessage s m := rfl

lemma step_message_actions (env : Env) (s : SysState) (m : IncomingMsg) :
    (step env s (Event.message m)).actions = [] := rfl

lemma step_message_threw (env : Env) (s : SysState) (m : IncomingMsg) :
    (step env s (Event.message m)).threw = false := rfl

lemma handleMessage_fields (s : SysState) (m : IncomingMsg) :
    (handleMessage s m).messageBuffer = s.messageBuffer ++ [bufferedOf m] ∧
    (handleMessage s m).lastGroupChatId
      = (if jsEndsWith m.sender "@g.us" then some m.sender
         else s.lastGroupChatId) ∧
    (handleMessage s m).phase = s.phase ∧
    (handleMessage s m).store = s.store ∧
    (s.bufferTimer = true →
      (handleMessage s m).bufferTimer = true ∧
      (handleMessage s m).pendingTimers = s.pendingTimers) ∧
    (s.bufferTimer = false →
      (handleMessage s m).bufferTimer = true ∧
      (handleMessage s m).pendingTimers = s.pendingTimers + 1) := by
  unfold handleMessage
  by_cases hb : s.bufferTimer = true
  · simp [hb]
  · simp [hb]

lemma fireTimer_spec (env : Env) (s : SysState) :
    ∃ q, (fireTimer env s).2 = [Action.postBatch (stripGroupDir q)] ∧
      q.messages = s.messageBuffer.map toPayloadMsg ∧
      (fireTimer env s).1.phase = .inflight q ∧
      (fireTimer env s).1.messageBuffer = s.messageBuffer ∧
      (fireTimer env s).1.bufferTimer = s.bufferTimer ∧
      (fireTimer env s).1.pendingTimers = s.pendingTimers - 1 ∧
      (fireTimer env s).1.lastGroupChatId = s.lastGroupChatId := by
  cases hl : s.lastGroupChatId with
  | none =>
      refine ⟨{ messages := s.messageBuffer.map toPayloadMsg, group := none,
                members := none, meta := none, groupDirTag := none }, ?_⟩
      simp [fireTimer, hl, stripGroupDir]
  | some gid =>
      refine ⟨buildN8nPayload (s.messageBuffer.map toPayloadMsg)
        (loadGroupAndMembersState env.myId env.now gid (env.chats gid) s.store).groupState
        (loadGroupAndMembersState env.myId env.now gid (env.chats gid) s.store).members
        (env.chats gid) gid
        (loadGroupAndMembersState env.myId env.now gid (env.chats gid) s.store).groupDir
        env.now env.dateStr, ?_⟩
      simp [fireTimer, hl, stripGroupDir, buildN8nPayload]

lemma step_fire_state (env : Env) (s : SysState) (hp : s.phase = .idle)
    (hz : s.pendingTimers ≠ 0) :
    (step env s Event.timerFire).state = (fireTimer env s).1 := by
  simp [step, tryStep, hp, hz]

lemma step_fire_actions (env : Env) (s : SysState) (hp : s.phase = .idle)
    (hz : s.pendingTimers ≠ 0) :
    (step env s Event.timerFire).actions = (fireTimer env s).2 := by
  simp [step, tryStep, hp, hz]

lemma step_fire_threw (env : Env) (s : SysState) (hp : s.phase = .idle)
    (hz : s.pendingTimers ≠ 0) :
    (step env s Event.timerFire).threw = false := by
  simp [step, tryStep, hp, hz]

lemma step_complete (env : Env) (s : SysState) (o : HttpOutcome)
    (payload : N8nPayload) (hp : s.phase = .inflight payload) :
    step env s (Event.cycleComplete o) = completeCycle s payload o := by
  simp [step, tryStep, hp]

lemma completeCycle_fields (s : SysState) (payload : N8nPayload)
    (o : HttpOutcome) :
    (completeCycle s payload o).state.messageBuffer = [] ∧
    (completeCycle s payload o).state.bufferTimer = false ∧
    (completeCycle s payload o).state.phase = .idle ∧
    (completeCycle s payload o).state.pendingTimers = s.pendingTimers ∧
    (completeCycle s payload o).state.lastGroupChatId = s.lastGroupChatId := by
  unfold completeCycle
  split
  · exact ⟨rfl, rfl, rfl, rfl, rfl⟩
  · split
    · exact ⟨rfl, rfl, rfl, rfl, rfl⟩
    · split
      · exact ⟨rfl, rfl, rfl, rfl, rfl⟩
      · exact ⟨rfl, rfl, rfl, rfl, rfl⟩

lemma decideReply_shape (gid : String) (out : Option OutputBlock)
    (acts : List Action) (h : decideReply gid out = .ok acts) :
    acts = [] ∨ ∃ t, acts = [Action.send gid t] := by
  unfold decideReply at h
  split at h
  · exact absurd h (by simp)
  · split at h
    · split at h
      · simp at h
        exact Or.inl h
      · split at h
        · simp at h
          exact Or.inr ⟨_, h.symm⟩
        · simp at h
          exact Or.inl h
    · simp at h
      exact Or.inl h

lemma completeCycle_actions_shape (s : SysState) (payload : N8nPayload)
    (o : HttpOutcome) :
    (completeCycle s payload o).actions = [] ∨
    ∃ gid t, (completeCycle s payload o).actions = [Action.send gid t] := by
  unfold completeCycle
  split
  · exact Or.inl rfl
  · split
    · exact Or.inl rfl
    · split
      · rename_i heq
        rcases decideReply_shape _ _ _ heq with h | ⟨t, ht⟩
        · exact Or.inl h
        · exact Or.inr ⟨_, t, ht⟩
      · exact Or.inl rfl

end TripSaathi

namespace TripSaathi

/-! ### The at-most-one-timer invariant (C5) -/

lemma handleMessage_inv (s : SysState) (m : IncomingMsg)
    (h : TimerInv s) : TimerInv (handleMessage s m) := by
  obtain ⟨h1, h2, h3, h4⟩ := h
  obtain ⟨hbuf, hlg, hph, hst, htrue, hfalse⟩ := handleMessage_fields s m
  cases hb : s.bufferTimer with
  | true =>
      obtain ⟨hb1, hb2⟩ := htrue hb
      refine ⟨by rw [hb2]; exact h1, ?_, ?_, ?_⟩
      · intro hf
        rw [hb1] at hf
        cases hf
      · intro p hp
        rw [hph] at hp
        rw [hb2]
        exact h3 p hp
      · intro p hp
        exact hb1
  | false =>
      obtain ⟨hb1, hb2⟩ := hfalse hb
      have h0 := h2 hb
      refine ⟨by rw [hb2, h0], ?_, ?_, ?_⟩
      · intro hf
        rw [hb1] at hf
        cases hf
      · intro p hp
        rw [hph] at hp
        have hcon := h4 p hp
        rw [hb] at hcon
        cases hcon
      · intro p hp
        exact hb1

lemma step_inv (env : Env) (s : SysState) (e : Event)
    (h : TimerInv s) : TimerInv (step env s e).state := by
  cases e with
  | message m => exact handleMessage_inv s m h
  | timerFire =>
      cases hp : s.phase with
      | inflight p =>
          have heq : (step env s .timerFire).state = s := by
            simp [step, tryStep, hp]
          rw [heq]; exact h
      | idle =>
          by_cases hz : s.pendingTimers = 0
          · have heq : (step env s .timerFire).state = s := by
              simp [step, tryStep, hp, hz]
            rw [heq]; exact h
          · rw [step_fire_state env s hp hz]
            obtain ⟨h1, h2, h3, h4⟩ := h
            have hbt : s.bufferTimer = true := by
              cases hb : s.bufferTimer
              · exact absurd (h2 hb) hz
              · rfl
            obtain ⟨q, _, _, hph, _, hbt2, hpt, _⟩ := fireTimer_spec env s
            refine ⟨by omega, ?_, ?_, ?_⟩
            · intro hf
              rw [hbt2, hbt] at hf
              cases hf
            · intro p _
              rw [hpt]; omega
            · intro p _
              rw [hbt2]; exact hbt
  | cycleComplete o =>
      cases hp : s.phase with
      | idle =>
          have heq : (step env s (.cycleComplete o)).state = s := by
            simp [step, tryStep, hp]
          rw [heq]; exact h
      | inflight payload =>
          rw [step_complete env s o payload hp]
          obtain ⟨h1, h2, h3, h4⟩ := h
          have h0 : s.pendingTimers = 0 := h3 payload hp
          obtain ⟨_, hbt, hph, hpt, _⟩ := completeCycle_fields s payload o
          refine ⟨by rw [hpt]; omega, fun _ => by rw [hpt]; exact h0, ?_, ?_⟩
          · intro p hcon
            rw [hph] at hcon
            cases hcon
          · intro p hcon
            rw [hph] at hcon
            cases hcon

lemma run_inv (env : Env) (s : SysState) (es : List Event)
    (h : TimerInv s) : TimerInv (run env s es).state := by
  induction es generalizing s with
  | nil => exact h
  | cons e rest ih => exact ih (step env s e).state (step_inv env s e h)

/-- C5: starting from the Idle initial state, no sequence of message
arrivals, timer expiries and cycle completions ever leaves more than
one batch timer scheduled: a new timer is created only when the
handle is null, and the handle is cleared only when the callback's
`finally` block runs. -/
theorem at_most_one_timer (env : Env) (st0 : Store) (es : List Event) :
    (run env (initState st0) es).state.pendingTimers ≤ 1 := by
  have hinit : TimerInv (initState st0) := by
    refine ⟨by simp [initState], fun _ => rfl, ?_, ?_⟩
    · intro p hp
      simp [initState] at hp
    · intro p hp
      simp [initState] at hp
  exact (run_inv env (initState st0) es hinit).1

end TripSaathi

namespace TripSaathi

lemma lastGroupOf_cons (init : Option String) (m : IncomingMsg)
    (rest : List IncomingMsg) :
    lastGroupOf init (m :: rest)
      = lastGroupOf (if jsEndsWith m.sender "@g.us" then some m.sender else init)
          rest := by
  rw [lastGroupOf]

lemma run_messages_timerSet (env : Env) (s : SysState) (ms : List IncomingMsg)
    (h : s.bufferTimer = true) :
    (run env s (ms.map Event.message)).state.lastGroupChatId
        = lastGroupOf s.lastGroupChatId ms ∧
    (run env s (ms.map Event.message)).state.messageBuffer
        = s.messageBuffer ++ ms.map bufferedOf ∧
    (run env s (ms.map Event.message)).state.bufferTimer = true ∧
    (run env s (ms.map Event.message)).state.pendingTimers = s.pendingTimers ∧
    (run env s (ms.map Event.message)).state.phase = s.phase ∧
    (run env s (ms.map Event.message)).state.store = s.store ∧
    (run env s (ms.map Event.message)).actions = [] ∧
    (run env s (ms.map Event.message)).threw = false := by
  induction ms generalizing s with
  | nil =>
      exact ⟨rfl, by simp [run], h, rfl, rfl, rfl, rfl, rfl⟩
  | cons m rest ih =>
      obtain ⟨hbuf, hlg, hph, hst, htrue, _⟩ := handleMessage_fields s m
      obtain ⟨hb1, hb2⟩ := htrue h
      obtain ⟨i1, i2, i3, i4, i5, i6, i7, i8⟩ := ih (handleMessage s m) hb1
      refine ⟨?_, ?_, ?_, ?_, ?_, ?_, ?_, ?_⟩
      · rw [List.map_cons, run_cons_state, step_message_state, i1, hlg,
            lastGroupOf_cons]
      · rw [List.map_cons, run_cons_state, step_message_state, i2, hbuf]
        simp
      · rw [List.map_cons, run_cons_state, step_message_state]
        exact i3
      · rw [List.map_cons, run_cons_state, step_message_state, i4, hb2]
      · rw [List.map_cons, run_cons_state, step_message_state, i5, hph]
      · rw [List.map_cons, run_cons_state, step_message_state, i6, hst]
      · rw [List.map_cons, run_cons_actions, step_message_state,
            step_message_actions, i7]
        rfl
      · rw [List.map_cons, run_cons_threw, step_message_state,
            step_message_threw, i8]
        rfl


end TripSaathi

namespace TripSaathi

lemma run_messages_from_init (env : Env) (st0 : Store) (m : IncomingMsg)
    (rest : List IncomingMsg) :
    (run env (initState st0) ((m :: rest).map Event.message)).state.lastGroupChatId
        = lastGroupOf none (m :: rest) ∧
    (run env (initState st0) ((m :: rest).map Event.message)).state.messageBuffer
        = (m :: rest).map bufferedOf ∧
    (run env (initState st0) ((m :: rest).map Event.message)).state.bufferTimer = true ∧
    (run env (initState st0) ((m :: rest).map Event.message)).state.pendingTimers = 1 ∧
    (run env (initState st0) ((m :: rest).map Event.message)).state.phase = .idle ∧
    (run env (initState st0) ((m :: rest).map Event.message)).state.store = st0 ∧
    (run env (initState st0) ((m :: rest).map Event.message)).actions = [] ∧
    (run env (initState st0) ((m :: rest).map Event.message)).threw = false := by
  obtain ⟨hbuf, hlg, hph, hst, _, hfalse⟩ := handleMessage_fields (initState st0) m
  obtain ⟨hb1, hb2⟩ := hfalse rfl
  obtain ⟨i1, i2, i3, i4, i5, i6, i7, i8⟩ :=
    run_messages_timerSet env (handleMessage (initState st0) m) rest hb1
  refine ⟨?_, ?_, ?_, ?_, ?_, ?_, ?_, ?_⟩
  · rw [List.map_cons, run_cons_state, step_message_state, i1, hlg,
        lastGroupOf_cons]
    rfl
  · rw [List.map_cons, run_cons_state, step_message_state, i2, hbuf]
    simp [initState]
  · rw [List.map_cons, run_cons_state, step_message_state]
    exact i3
  · rw [List.map_cons, run_cons_state, step_message_state, i4, hb2]
    rfl
  · rw [List.map_cons, run_cons_state, step_message_state, i5, hph]
    rfl
  · rw [List.map_cons, run_cons_state, step_message_state, i6, hst]
    rfl
  · rw [List.map_cons, run_cons_actions, step_message_state,
        step_message_actions, i7]
    rfl
  · rw [List.map_cons, run_cons_threw, step_message_state,
        step_message_threw, i8]
    rfl

lemma run_fire_complete (env : Env) (s : SysState) (o : HttpOutcome)
    (hp : s.phase = .idle) (hz : s.pendingTimers ≠ 0) :
    ∃ q, q.messages = s.messageBuffer.map toPayloadMsg ∧
      (run env s [Event.timerFire, Event.cycleComplete o]).actions
        = Action.postBatch (stripGroupDir q)
            :: (completeCycle (fireTimer env s).1 q o).actions ∧
      (run env s [Event.timerFire, Event.cycleComplete o]).state
        = (completeCycle (fireTimer env s).1 q o).state ∧
      (run env s [Event.timerFire, Event.cycleComplete o]).threw
        = (completeCycle (fireTimer env s).1 q o).threw ∧
      (fireTimer env s).1.lastGroupChatId = s.lastGroupChatId ∧
      (fireTimer env s).1.phase = .inflight q := by
  obtain ⟨q, f1, f2, f3, f4, f5, f6, f7⟩ := fireTimer_spec env s
  refine ⟨q, f2, ?_, ?_, ?_, f7, f3⟩
  · rw [run_cons_actions, step_fire_actions env s hp hz, f1,
        step_fire_state env s hp hz, run_cons_actions,
        step_complete env _ o q f3, run_nil_actions]
    simp
  · rw [run_cons_state, step_fire_state env s hp hz, run_cons_state,
        step_complete env _ o q f3, run_nil_state]
  · rw [run_cons_threw, step_fire_threw env s hp hz,
        step_fire_state env s hp hz, run_cons_threw,
        step_complete env _ o q f3, run_nil_threw]
    simp

/-- C1 amended: each message arriving within one window is contained,
in arrival order, in the single batch posted to the orchestrator at
expiry; buffer and timer handle return to Idle — but only AFTER the
downstream pipeline completes, not at the moment of expiry. -/
theorem batch_window_delivery (env : Env) (st0 : Store)
    (ms : List IncomingMsg) (o : HttpOutcome) (h : ms ≠ []) :
    ∃ p acts,
      (run env (initState st0)
          (ms.map Event.message ++ [Event.timerFire, Event.cycleComplete o])).actions
        = Action.postBatch p :: acts ∧
      p.messages = ms.map (fun m => toPayloadMsg (bufferedOf m)) ∧
      (∀ a ∈ acts, ∀ q2, a ≠ Action.postBatch q2) ∧
      (run env (initState st0)
          (ms.map Event.message ++ [Event.timerFire, Event.cycleComplete o])).state.messageBuffer
        = [] ∧
      (run env (initState st0)
          (ms.map Event.message ++ [Event.timerFire, Event.cycleComplete o])).state.bufferTimer
        = false ∧
      (run env (initState st0)
          (ms.map Event.message ++ [Event.timerFire, Event.cycleComplete o])).state.phase
        = Phase.idle := by
  obtain ⟨m, rest, rfl⟩ := List.exists_cons_of_ne_nil h
  obtain ⟨a1, a2, a3, a4, a5, a6, a7, a8⟩ := run_messages_from_init env st0 m rest
  obtain ⟨q, f2, racts, rstate, rthrew, flgid, fphase⟩ :=
    run_fire_complete env
      (run env (initState st0) ((m :: rest).map Event.message)).state o a5
      (by rw [a4]; exact one_ne_zero)
  refine ⟨stripGroupDir q,
    (completeCycle (fireTimer env (run env (initState st0)
        ((m :: rest).map Event.message)).state).1 q o).actions,
    ?_, ?_, ?_, ?_, ?_, ?_⟩
  · rw [run_append_actions, a7, racts]
    rfl
  · have hs : (stripGroupDir q).messages = q.messages := rfl
    rw [hs, f2, a2, List.map_map]
    rfl
  · intro a ha q2
    rcases completeCycle_actions_shape (fireTimer env (run env (initState st0)
        ((m :: rest).map Event.message)).state).1 q o with hsh | ⟨gid, t, hsh⟩
    · rw [hsh] at ha
      cases ha
    · rw [hsh, List.mem_singleton] at ha
      rw [ha]
      intro hcon
      cases hcon
  · rw [run_append_state, rstate]
    exact (completeCycle_fields _ q o).1
  · rw [run_append_state, rstate]
    exact (completeCycle_fields _ q o).2.1
  · rw [run_append_state, rstate]
    exact (completeCycle_fields _ q o).2.2.1

end TripSaathi

namespace TripSaathi

/-! ### Store-content preservation through payload enrichment (C3) -/

lemma saveGroupJSON_members (st : Store) (dir : String) (g : GroupState) :
    (saveGroupJSON st dir g).members = st.members := rfl

lemma loadOneMember_groups (dir : String) (now : Nat) (p : Participant)
    (st : Store) :
    (loadOneMember dir now p st).2.groups = st.groups := by
  cases hl : loadMemberJSON st dir (memberFileName p.id) with
  | some ex => simp [loadOneMember, hl]
  | none => simp [loadOneMember, hl, saveMemberJSON]

lemma loadMembersList_groups (dir : String) (now : Nat)
    (ps : List Participant) (st : Store) :
    (loadMembersList dir now ps st).2.groups = st.groups := by
  induction ps generalizing st with
  | nil => rfl
  | cons p rest ih =>
      rw [show (loadMembersList dir now (p :: rest) st).2
            = (loadMembersList dir now rest (loadOneMember dir now p st).2).2
          from rfl]
      rw [ih, loadOneMember_groups]

lemma loadOneMember_preserves_member (dir : String) (now : Nat)
    (p : Participant) (st : Store) (d f : String) (m : MemberState)
    (h : st.members d f = some (.parsed m)) :
    (loadOneMember dir now p st).2.members d f = some (.parsed m) := by
  cases hl : loadMemberJSON st dir (memberFileName p.id) with
  | some ex => simp [loadOneMember, hl, h]
  | none =>
      simp only [loadOneMember, hl]
      by_cases h1 : d = dir
      · by_cases h2 : f = memberFileName p.id
        · subst h1
          subst h2
          unfold loadMemberJSON at hl
          rw [h] at hl
          simp at hl
        · simp [saveMemberJSON, h2, h]
      · simp [saveMemberJSON, h1, h]

lemma loadMembersList_preserves_member (dir : String) (now : Nat)
    (ps : List Participant) (st : Store) (d f : String) (m : MemberState)
    (h : st.members d f = some (.parsed m)) :
    (loadMembersList dir now ps st).2.members d f = some (.parsed m) := by
  induction ps generalizing st with
  | nil => exact h
  | cons p rest ih =>
      rw [show (loadMembersList dir now (p :: rest) st).2
            = (loadMembersList dir now rest (loadOneMember dir now p st).2).2
          from rfl]
      exact ih _ (loadOneMember_preserves_member dir now p st d f m h)

lemma loadGAMS_preserves_member (myId : Option String) (now : Nat)
    (groupId : String) (chat : ChatInfo) (st : Store) (d f : String)
    (m : MemberState) (h : st.members d f = some (.parsed m)) :
    (loadGroupAndMembersState myId now groupId chat st).store.members d f
      = some (.parsed m) := by
  show (saveGroupJSON _ (groupDirName groupId) _).members d f = _
  rw [saveGroupJSON_members]
  exact loadMembersList_preserves_member _ now _ st d f m h

lemma loadGAMS_preserves_group (myId : Option String) (now : Nat)
    (groupId : String) (chat : ChatInfo) (st : Store) (d : String)
    (g : GroupState) (h : st.groups d = some (.parsed g)) :
    (loadGroupAndMembersState myId now groupId chat st).store.groups d
      = some (.parsed g) := by
  show (saveGroupJSON (loadMembersList (groupDirName groupId) now
      (filterParticipants myId chat.participants) st).2 (groupDirName groupId)
      (loadGroupJSON st (groupDirName groupId) (defaultGroupState now))).groups d = _
  by_cases hd : d = groupDirName groupId
  · subst hd
    have hg : loadGroupJSON st (groupDirName groupId) (defaultGroupState now)
        = g := by
      unfold loadGroupJSON
      rw [h]
    rw [hg]
    simp [saveGroupJSON]
  · simp only [saveGroupJSON, if_neg hd]
    rw [loadMembersList_groups]
    exact h

lemma fireTimer_preserves_group (env : Env) (s : SysState) (d : String)
    (g : GroupState) (h : s.store.groups d = some (.parsed g)) :
    (fireTimer env s).1.store.groups d = some (.parsed g) := by
  cases hl : s.lastGroupChatId with
  | none =>
      simp [fireTimer, hl]
      exact h
  | some gid =>
      simp [fireTimer, hl]
      exact loadGAMS_preserves_group env.myId env.now gid (env.chats gid)
        s.store d g h

lemma fireTimer_preserves_member (env : Env) (s : SysState) (d f : String)
    (m : MemberState) (h : s.store.members d f = some (.parsed m)) :
    (fireTimer env s).1.store.members d f = some (.parsed m) := by
  cases hl : s.lastGroupChatId with
  | none =>
      simp [fireTimer, hl]
      exact h
  | some gid =>
      simp [fireTimer, hl]
      exact loadGAMS_preserves_member env.myId env.now gid (env.chats gid)
        s.store d f m h

lemma completeCycle_failure (s : SysState) (payload : N8nPayload) :
    (completeCycle s payload .failure).actions = [] ∧
    (completeCycle s payload .failure).threw = false ∧
    (completeCycle s payload .failure).state.store = s.store :=
  ⟨rfl, rfl, rfl⟩

/-- C3 amended: when the orchestrator call fails, no chat message is
sent, nothing throws, buffer and timer return to Idle, and every
record that was present and parseable before the cycle still holds
the same content — though the enrichment step may have created
default records for previously unseen groups/members before the call
was made. -/
theorem failed_cycle_no_effects (env : Env) (st0 : Store)
    (ms : List IncomingMsg) (h : ms ≠ []) :
    (∀ c t, Action.send c t ∉ (run env (initState st0)
        (ms.map Event.message ++ [Event.timerFire, Event.cycleComplete .failure])).actions) ∧
    (run env (initState st0)
        (ms.map Event.message ++ [Event.timerFire, Event.cycleComplete .failure])).state.messageBuffer
      = [] ∧
    (run env (initState st0)
        (ms.map Event.message ++ [Event.timerFire, Event.cycleComplete .failure])).state.bufferTimer
      = false ∧
    (run env (initState st0)
        (ms.map Event.message ++ [Event.timerFire, Event.cycleComplete .failure])).state.phase
      = Phase.idle ∧
    (run env (initState st0)
        (ms.map Event.message ++ [Event.timerFire, Event.cycleComplete .failure])).threw
      = false ∧
    (∀ d g, st0.groups d = some (.parsed g) →
      (run env (initState st0)
          (ms.map Event.message ++ [Event.timerFire, Event.cycleComplete .failure])).state.store.groups d
        = some (.parsed g)) ∧
    (∀ d f m2, st0.members d f = some (.parsed m2) →
      (run env (initState st0)
          (ms.map Event.message ++ [Event.timerFire, Event.cycleComplete .failure])).state.store.members d f
        = some (.parsed m2)) := by
  obtain ⟨m, rest, rfl⟩ := List.exists_cons_of_ne_nil h
  obtain ⟨a1, a2, a3, a4, a5, a6, a7, a8⟩ := run_messages_from_init env st0 m rest
  obtain ⟨q, f2, racts, rstate, rthrew, flgid, fphase⟩ :=
    run_fire_complete env
      (run env (initState st0) ((m :: rest).map Event.message)).state .failure a5
      (by rw [a4]; exact one_ne_zero)
  obtain ⟨cf1, cf2, cf3⟩ := completeCycle_failure
    (fireTimer env (run env (initState st0) ((m :: rest).map Event.message)).state).1 q
  have hstore : (run env (initState st0)
      ((m :: rest).map Event.message ++ [Event.timerFire, Event.cycleComplete .failure])).state.store
      = (fireTimer env (run env (initState st0) ((m :: rest).map Event.message)).state).1.store := by
    rw [run_append_state, rstate, cf3]
  refine ⟨?_, ?_, ?_, ?_, ?_, ?_, ?_⟩
  · intro c t hmem
    rw [run_append_actions, a7, racts, cf1] at hmem
    simp at hmem
  · rw [run_append_state, rstate]
    exact (completeCycle_fields _ q .failure).1
  · rw [run_append_state, rstate]
    exact (completeCycle_fields _ q .failure).2.1
  · rw [run_append_state, rstate]
    exact (completeCycle_fields _ q .failure).2.2.1
  · rw [run_append_threw, a8, rthrew, cf2]
    rfl
  · intro d g hg
    rw [hstore]
    apply fireTimer_preserves_group
    rw [a6]
    exact hg
  · intro d f m2 hm
    rw [hstore]
    apply fireTimer_preserves_member
    rw [a6]
    exact hm

end TripSaathi

namespace TripSaathi

/-- C4 amended: for an envelope that IS nested under `output`, an
absent, non-string, or whitespace-only `response` yields no chat
action and no error, and the `updated` persistence is still applied
exactly as the payload's `_groupDir` dictates. -/
theorem no_response_no_chat_action (s : SysState) (payload : N8nPayload)
    (upd : Option UpdatedStates) (ob : OutputBlock)
    (hres : ob.response = none ∨ ob.response = some .nonString ∨
            ∃ t, ob.response = some (.str t) ∧ (jsTrim t).length = 0) :
    (completeCycle s payload
        (.objData { updated := upd, output := some ob })).actions = [] ∧
    (completeCycle s payload
        (.objData { updated := upd, output := some ob })).threw = false ∧
    (completeCycle s payload
        (.objData { updated := upd, output := some ob })).state.store
      = persistPhase payload upd s.store := by
  have hdr : ∀ gid, decideReply gid (some ob) = .ok [] := by
    intro gid
    rcases hres with h | h | ⟨t, h, ht⟩
    · simp [decideReply, h]
    · simp [decideReply, h]
    · have htrim : jsTrim t = "" := by
        have hdata : (jsTrim t).data = [] := List.length_eq_zero.mp ht
        exact congrArg String.mk hdata
      simp [decideReply, h, htrim, jsToLower]
  cases hl : s.lastGroupChatId with
  | none =>
      simp [completeCycle, normalizeResponse, hl, persistPhase]
  | some gid =>
      simp [completeCycle, normalizeResponse, hl, hdr gid, persistPhase]

/-- C10 amended: with no group chat ever observed at expiry, the
payload is the bare messages array (no group, members or meta) and
the enrichment touches no state; and as long as the last-group-chat
id is STILL null when the response is handled, no reply is sent, no
state is persisted and nothing throws, whatever the response. -/
theorem no_group_chat_bare_cycle (env : Env) (s s2 : SysState)
    (p : N8nPayload)
    (h1 : s.lastGroupChatId = none) (h2 : s2.lastGroupChatId = none)
    (h3 : p.groupDirTag = none) :
    (fireTimer env s).2 = [Action.postBatch
        { messages := s.messageBuffer.map toPayloadMsg, group := none,
          members := none, meta := none, groupDirTag := none }] ∧
    (fireTimer env s).1.store = s.store ∧
    (fireTimer env s).1.phase = Phase.inflight
        { messages := s.messageBuffer.map toPayloadMsg, group := none,
          members := none, meta := none, groupDirTag := none } ∧
    (∀ o2 : HttpOutcome, (completeCycle s2 p o2).actions = [] ∧
      (completeCycle s2 p o2).threw = false ∧
      (completeCycle s2 p o2).state.store = s2.store) := by
  refine ⟨?_, ?_, ?_, ?_⟩
  · simp [fireTimer, h1, stripGroupDir]
  · simp [fireTimer, h1]
  · simp [fireTimer, h1]
  · intro o2
    cases hn : normalizeResponse o2 with
    | none => simp [completeCycle, hn]
    | some envl => simp [completeCycle, hn, h2, persistPhase, h3]

end TripSaathi

namespace TripSaathi

/-- C1 counterexample: one message, then timer expiry: the batch has
been handed to the pipeline (the POST action is emitted) while the
buffer still holds the message and the state is not Idle — the buffer
is NOT cleared before the downstream pipeline runs. -/
theorem batch_clear_timing_counterexample :
    (run envC (initState Store.empty) [Event.message dmsg, Event.timerFire]).actions
      = [Action.postBatch { messages := [{ message := "hi", senderName := none }],
                            group := none, members := none, meta := none,
                            groupDirTag := none }] ∧
    (run envC (initState Store.empty) [Event.message dmsg, Event.timerFire]).state.messageBuffer
      = [bufferedOf dmsg] ∧
    (run envC (initState Store.empty) [Event.message dmsg, Event.timerFire]).state.phase
      ≠ Phase.idle := by
  refine ⟨rfl, rfl, ?_⟩
  decide

/-- Witness for C1's amended statement at a single direct message and
a failing orchestrator call. -/
theorem batch_window_delivery_witness :
    ∃ p acts,
      (run envC (initState Store.empty)
          ([dmsg].map Event.message ++ [Event.timerFire, Event.cycleComplete .failure])).actions
        = Action.postBatch p :: acts ∧
      p.messages = [dmsg].map (fun m => toPayloadMsg (bufferedOf m)) ∧
      (∀ a ∈ acts, ∀ q2, a ≠ Action.postBatch q2) ∧
      (run envC (initState Store.empty)
          ([dmsg].map Event.message ++ [Event.timerFire, Event.cycleComplete .failure])).state.messageBuffer
        = [] ∧
      (run envC (initState Store.empty)
          ([dmsg].map Event.message ++ [Event.timerFire, Event.cycleComplete .failure])).state.bufferTimer
        = false ∧
      (run envC (initState Store.empty)
          ([dmsg].map Event.message ++ [Event.timerFire, Event.cycleComplete .failure])).state.phase
        = Phase.idle :=
  batch_window_delivery envC Store.empty [dmsg] .failure (by decide)

/-- C3 counterexample: a failing orchestrator call for a previously
unseen group still leaves a freshly created default group record on
disk — written by the enrichment step before the call. -/
theorem failed_cycle_creates_state_counterexample :
    Store.empty.groups (groupDirName "120363@g.us") = none ∧
    (run envC (initState Store.empty)
        [Event.message gmsg, Event.timerFire, Event.cycleComplete .failure]).state.store.groups
      (groupDirName "120363@g.us")
      = some (.parsed (defaultGroupState 1000)) := by
  exact ⟨rfl, by decide⟩

/-- Witness for C3's amended statement. -/
theorem failed_cycle_no_effects_witness :
    (∀ c t, Action.send c t ∉ (run envC (initState Store.empty)
        ([gmsg].map Event.message ++ [Event.timerFire, Event.cycleComplete .failure])).actions) ∧
    (run envC (initState Store.empty)
        ([gmsg].map Event.message ++ [Event.timerFire, Event.cycleComplete .failure])).state.messageBuffer
      = [] ∧
    (run envC (initState Store.empty)
        ([gmsg].map Event.message ++ [Event.timerFire, Event.cycleComplete .failure])).state.bufferTimer
      = false ∧
    (run envC (initState Store.empty)
        ([gmsg].map Event.message ++ [Event.timerFire, Event.cycleComplete .failure])).state.phase
      = Phase.idle ∧
    (run envC (initState Store.empty)
        ([gmsg].map Event.message ++ [Event.timerFire, Event.cycleComplete .failure])).threw
      = false ∧
    (∀ d g, Store.empty.groups d = some (.parsed g) →
      (run envC (initState Store.empty)
          ([gmsg].map Event.message ++ [Event.timerFire, Event.cycleComplete .failure])).state.store.groups d
        = some (.parsed g)) ∧
    (∀ d f m2, Store.empty.members d f = some (.parsed m2) →
      (run envC (initState Store.empty)
          ([gmsg].map Event.message ++ [Event.timerFire, Event.cycleComplete .failure])).state.store.members d f
        = some (.parsed m2)) :=
  failed_cycle_no_effects envC Store.empty [gmsg] (by decide)

/-- C4 counterexample: an envelope carrying `updated` but NOT nested
under an `output` wrapper makes the reply step throw a TypeError
(`data.output.response` on an absent `output`) — after the `updated`
persistence has already been applied. -/
theorem missing_output_wrapper_counterexample :
    (run envC (initState Store.empty)
        [Event.message gmsg, Event.timerFire,
         Event.cycleComplete (.objData
           { updated := some { group := some (defaultGroupState 7), members := none },
             output := none })]).threw = true ∧
    (run envC (initState Store.empty)
        [Event.message gmsg, Event.timerFire,
         Event.cycleComplete (.objData
           { updated := some { group := some (defaultGroupState 7), members := none },
             output := none })]).state.store.groups (groupDirName "120363@g.us")
      = some (.parsed (defaultGroupState 7)) := by
  exact ⟨by decide, by decide⟩

/-- Witness for C4's amended statement at an output block with an
absent `response`. -/
theorem no_response_no_chat_action_witness :
    (completeCycle (initState Store.empty)
        { messages := [], group := none, members := none, meta := none,
          groupDirTag := none }
        (.objData { updated := none, output := some { response := none } })).actions
      = [] ∧
    (completeCycle (initState Store.empty)
        { messages := [], group := none, members := none, meta := none,
          groupDirTag := none }
        (.objData { updated := none, output := some { response := none } })).threw
      = false ∧
    (completeCycle (initState Store.empty)
        { messages := [], group := none, members := none, meta := none,
          groupDirTag := none }
        (.objData { updated := none, output := some { response := none } })).state.store
      = persistPhase
          { messages := [], group := none, members := none, meta := none,
            groupDirTag := none }
          none (initState Store.empty).store :=
  no_response_no_chat_action (initState Store.empty)
    { messages := [], group := none, members := none, meta := none,
      groupDirTag := none }
    none { response := none } (Or.inl rfl)

/-- C10 counterexample: only a direct message is buffered, so the
last-group-chat id is null at expiry and the payload is bare; but a
group message arriving while the HTTP call is in flight re-populates
the id, and the response IS posted to that group. -/
theorem late_group_message_reply_counterexample :
    (run envC (initState Store.empty) [Event.message dmsg]).state.lastGroupChatId
      = none ∧
    (run envC (initState Store.empty) [Event.message dmsg, Event.timerFire]).state.phase
      = Phase.inflight barePayloadHi ∧
    (run envC (initState Store.empty)
        [Event.message dmsg, Event.timerFire, Event.message gmsg,
         Event.cycleComplete (.objData helloEnvelope)]).actions
      = [Action.postBatch barePayloadHi,
         Action.send "120363@g.us" "hello there"] := by
  exact ⟨by decide, by decide, by decide⟩

/-- Witness for C10's amended statement. -/
theorem no_group_chat_bare_cycle_witness :
    (fireTimer envC (initState Store.empty)).2 = [Action.postBatch
        { messages := (initState Store.empty).messageBuffer.map toPayloadMsg,
          group := none, members := none, meta := none, groupDirTag := none }] ∧
    (fireTimer envC (initState Store.empty)).1.store = (initState Store.empty).store ∧
    (fireTimer envC (initState Store.empty)).1.phase = Phase.inflight
        { messages := (initState Store.empty).messageBuffer.map toPayloadMsg,
          group := none, members := none, meta := none, groupDirTag := none } ∧
    (∀ o2 : HttpOutcome,
      (completeCycle (initState Store.empty)
          { messages := [], group := none, members := none, meta := none,
            groupDirTag := none } o2).actions = [] ∧
      (completeCycle (initState Store.empty)
          { messages := [], group := none, members := none, meta := none,
            groupDirTag := none } o2).threw = false ∧
      (completeCycle (initState Store.empty)
          { messages := [], group := none, members := none, meta := none,
            groupDirTag := none } o2).state.store = (initState Store.empty).store) :=
  no_group_chat_bare_cycle envC (initState Store.empty) (initState Store.empty)
    { messages := [], group := none, members := none, meta := none,
      groupDirTag := none }
    rfl rfl rfl

end TripSaathi
